import Mathlib

/-!
Shallow embedding of the two attention modules of this repository
(`src/models/fastformer.py` and `src/models/linformer.py`) and of their
transformer-block wrappers, together with theorems settling the spec
claims about them.

Tensors are embedded as curried functions over `Fin` index types; the
channel axis of width `C = H * D` (`H` heads of `D` channels each) is
indexed by the pair type `Fin H × Fin D`, so the einops head
split/merge reindexings of the source become the identity on indices.
Dropout modules are embedded with their probability, the training flag
and an explicit keep-mask oracle standing for the Bernoulli draws, so
that claims about determinism quantify over the mask.
-/

open BigOperators

/-- A `(B, N, C)` activation tensor with the channel axis `C = H * D`
indexed head-major by the pair `(h, d)`. -/
abbrev Tens (B N H D : ℕ) := Fin B → Fin N → Fin H × Fin D → ℝ

/-- A per-head `(B, H, N, D)` tensor (layout `B H N C` of the source). -/
abbrev HTens (B H N D : ℕ) := Fin B → Fin H → Fin N → Fin D → ℝ

/-- Keep-mask oracle for a dropout applied to a `(B, H, N, D)`-shaped tensor. -/
abbrev Mask4 (B H N D : ℕ) := Fin B → Fin H → Fin N → Fin D → Bool

/-- Keep-mask oracle for a dropout applied to a `(B, N, C)`-shaped tensor. -/
abbrev Mask3 (B N H D : ℕ) := Fin B → Fin N → Fin H × Fin D → Bool

/-- `torch.softmax` along an axis of length `N`: exponentiate and normalise.
(The max-subtraction of the implementation is a numerical stabilisation that
does not change the mathematical value.) -/
noncomputable def softmax {N : ℕ} (s : Fin N → ℝ) : Fin N → ℝ :=
  fun n => Real.exp (s n) / ∑ m, Real.exp (s m)

/-- `nn.Dropout(p)` applied to a `(B, H, N, D)`-shaped tensor: in training
mode with `p > 0`, kept entries are rescaled by `1/(1-p)` and dropped entries
are zeroed (inverted dropout); otherwise the identity. -/
noncomputable def dropout4 {B H N D : ℕ} (p : ℚ) (training : Bool)
    (m : Mask4 B H N D) (x : HTens B H N D) : HTens B H N D :=
  if training = true ∧ 0 < p then
    fun b h n d => if m b h n d then x b h n d * (1 - (p : ℝ))⁻¹ else 0
  else x

/-- `nn.Dropout(p)` applied to a `(B, N, C)`-shaped tensor. -/
noncomputable def dropout3 {B N H D : ℕ} (p : ℚ) (training : Bool)
    (m : Mask3 B N H D) (x : Tens B N H D) : Tens B N H D :=
  if training = true ∧ 0 < p then
    fun b n c => if m b n c then x b n c * (1 - (p : ℝ))⁻¹ else 0
  else x

/-- The stochastic-depth gate of both blocks, as built at construction:
`DropPath(drop_path) if drop_path > 0.0 else nn.Identity()`.  The `DropPath`
module itself lives outside this repository (timm), so its behaviour is an
abstract function `impl` of the training flag. -/
def mkDropPath {α : Type} (p : ℚ) (impl : Bool → α → α) (training : Bool) : α → α :=
  if 0 < p then impl training else id

/-! ## FastAttention (`src/models/fastformer.py`, lines 13–52) -/

/-- Parameters owned by a `FastAttention` module with `H` heads of `D`
channels (`dim = H * D`): the fused QKV projection `qkv = nn.Linear(dim, dim*3)`
(its weight indexed by the `(j, h, d)` decomposition that
`rearrange "B N (qkv H C) -> qkv B H N C"` performs on its output rows),
the dropout probabilities, the output projection `proj = nn.Linear(dim, dim)`,
the learned scoring vectors `w_q`, `w_k`, and the stored `scale`. -/
structure FastAttentionParams (H D : ℕ) where
  scale : ℝ
  wqkv : Fin 3 → Fin H → Fin D → Fin H × Fin D → ℝ
  bqkv : Fin 3 → Fin H → Fin D → ℝ
  attnDropP : ℚ
  wproj : Fin H × Fin D → Fin H × Fin D → ℝ
  bproj : Fin H × Fin D → ℝ
  projDropP : ℚ
  w_q : Fin H → Fin D → ℝ
  w_k : Fin H → Fin D → ℝ

variable {B N H D : ℕ}

/-- Line 31: `qkv = rearrange(self.qkv(x), "B N (qkv H C) -> qkv B H N C")`.
Component `j` of the projected triple, in the `B H N C` layout. -/
noncomputable def fastQKV (P : FastAttentionParams H D) (x : Tens B N H D)
    (j : Fin 3) : HTens B H N D :=
  fun b h n d => (∑ c, P.wqkv j h d c * x b n c) + P.bqkv j h d

/-- Line 32: the query component `q = qkv.unbind(0)[0]`. -/
noncomputable def fastQ (P : FastAttentionParams H D) (x : Tens B N H D) :
    HTens B H N D := fastQKV P x 0

/-- Line 32: the key component `k`. -/
noncomputable def fastK (P : FastAttentionParams H D) (x : Tens B N H D) :
    HTens B H N D := fastQKV P x 1

/-- Line 32: the value component `v`. -/
noncomputable def fastV (P : FastAttentionParams H D) (x : Tens B N H D) :
    HTens B H N D := fastQKV P x 2

/-- Lines 34–35: `alpha = (einsum("BHNC,HC->BHN", q, w_q) * scale).softmax(-1)`. -/
noncomputable def fastAlpha (P : FastAttentionParams H D) (x : Tens B N H D) :
    Fin B → Fin H → Fin N → ℝ :=
  fun b h => softmax (fun n => (∑ d, fastQ P x b h n d * P.w_q h d) * P.scale)

/-- Lines 36–37: `global_q = reduce(einsum("BHN,BHNC->BHNC", alpha, q), sum over N)`. -/
noncomputable def fastGlobalQ (P : FastAttentionParams H D) (x : Tens B N H D) :
    Fin B → Fin H → Fin D → ℝ :=
  fun b h d => ∑ n, fastAlpha P x b h n * fastQ P x b h n d

/-- Line 39: `p = einsum("BHC,BHNC -> BHNC", global_q, k)` (before dropout). -/
noncomputable def fastPreP (P : FastAttentionParams H D) (x : Tens B N H D) :
    HTens B H N D :=
  fun b h n d => fastGlobalQ P x b h d * fastK P x b h n d

/-- Line 40: `p = self.attn_drop(p)`. -/
noncomputable def fastP (P : FastAttentionParams H D) (training : Bool)
    (mA : Mask4 B H N D) (x : Tens B N H D) : HTens B H N D :=
  dropout4 P.attnDropP training mA (fastPreP P x)

/-- Lines 41–42: `beta = (einsum("BHNC,HC->BHN", p, w_k) * scale).softmax(-1)`. -/
noncomputable def fastBeta (P : FastAttentionParams H D) (training : Bool)
    (mA : Mask4 B H N D) (x : Tens B N H D) : Fin B → Fin H → Fin N → ℝ :=
  fun b h => softmax (fun n => (∑ d, fastP P training mA x b h n d * P.w_k h d) * P.scale)

/-- Lines 43–44: `global_k = reduce(einsum("BHN,BHNC->BHNC", beta, k), sum over N)`. -/
noncomputable def fastGlobalK (P : FastAttentionParams H D) (training : Bool)
    (mA : Mask4 B H N D) (x : Tens B N H D) : Fin B → Fin H → Fin D → ℝ :=
  fun b h d => ∑ n, fastBeta P training mA x b h n * fastK P x b h n d

/-- Line 46: `u = einsum("BHC,BHNC->BHNC", global_k, v)`. -/
noncomputable def fastU (P : FastAttentionParams H D) (training : Bool)
    (mA : Mask4 B H N D) (x : Tens B N H D) : HTens B H N D :=
  fun b h n d => fastGlobalK P training mA x b h d * fastV P x b h n d

/-- Lines 48–52: flatten heads (`B H N C -> B N (H C)`, the identity on our
pair-indexed channels), `x = self.proj(u) + q`, `x = self.proj_drop(x)`. -/
noncomputable def fastForward (P : FastAttentionParams H D) (training : Bool)
    (mA : Mask4 B H N D) (mP : Mask3 B N H D) (x : Tens B N H D) : Tens B N H D :=
  dropout3 P.projDropP training mP
    (fun b n c =>
      ((∑ c2, P.wproj c c2 * fastU P training mA x b c2.1 n c2.2) + P.bproj c)
        + fastQ P x b c.1 n c.2)

/-- A raw `(B, N, C)` tensor with its shape carried as data, for claims about
runtime shapes. -/
structure Tensor3 where
  B : ℕ
  N : ℕ
  C : ℕ
  data : Fin B → Fin N → Fin C → ℝ

/-- The `(B, N, C)` shape triple of a raw tensor. -/
def Tensor3.shape (t : Tensor3) : ℕ × ℕ × ℕ := (t.B, t.N, t.C)

/-- `FastAttention.forward` on a raw tensor (evaluation mode): the fused QKV
linear requires the channel count of the input to equal the construction
`dim = H * D` (and the `rearrange` then splits it into `H` heads exactly);
otherwise the layer fails. -/
noncomputable def fastForwardT (P : FastAttentionParams H D) (t : Tensor3) :
    Option Tensor3 :=
  if h : t.C = H * D then
    some ⟨t.B, t.N, t.C, fun b n c =>
      fastForward P false (fun _ _ _ _ => true) (fun _ _ _ => true)
        (fun b n hd => t.data b n (Fin.cast h.symm (finProdFinEquiv hd)))
        b n (finProdFinEquiv.symm (Fin.cast h c))⟩
  else none

/-! ## LinAttention (`src/models/linformer.py`, lines 13–52) -/

/-- Parameters owned by a `LinAttention` module with `H` heads of `D`
channels, construction-time token count `T = num_tokens` and reduced token
budget `K = num_tokens // kv_tokens_ratio`: the fused QKV projection, the
single token-projection `proj_kv = nn.Linear(num_tokens, num_tokens // kv_tokens_ratio)`,
the dropout probabilities, the output projection and the stored `scale`. -/
structure LinAttentionParams (H D T K : ℕ) where
  scale : ℝ
  wqkv : Fin 3 → Fin H → Fin D → Fin H × Fin D → ℝ
  bqkv : Fin 3 → Fin H → Fin D → ℝ
  wkv : Fin K → Fin T → ℝ
  bkv : Fin K → ℝ
  attnDropP : ℚ
  wproj : Fin H × Fin D → Fin H × Fin D → ℝ
  bproj : Fin H × Fin D → ℝ
  projDropP : ℚ

variable {T K : ℕ}

/-- Line 36: `qkv = rearrange(self.qkv(x), "B N (qkv H C) -> qkv B H C N")`.
Component `j` of the projected triple, in the channel-major `B H C N` layout. -/
noncomputable def linQKVraw (P : LinAttentionParams H D T K) (x : Tens B T H D)
    (j : Fin 3) : Fin B → Fin H → Fin D → Fin T → ℝ :=
  fun b h d n => (∑ c, P.wqkv j h d c * x b n c) + P.bqkv j h d

/-- The learned token-projection the forward pass applies to the key tensor:
`self.proj_kv`, acting on the last (token) axis. -/
noncomputable def linKeyTokenMap (P : LinAttentionParams H D T K) :
    (Fin T → ℝ) → Fin K → ℝ :=
  fun f κ => (∑ n, P.wkv κ n * f n) + P.bkv κ

/-- The learned token-projection the forward pass applies to the value tensor:
again `self.proj_kv`, the same owned module. -/
noncomputable def linValueTokenMap (P : LinAttentionParams H D T K) :
    (Fin T → ℝ) → Fin K → ℝ :=
  fun f κ => (∑ n, P.wkv κ n * f n) + P.bkv κ

/-- Line 37 + 182: `q = rearrange(qkv[0], "B H C N -> B H N C")`. -/
noncomputable def linQ (P : LinAttentionParams H D T K) (x : Tens B T H D) :
    Fin B → Fin H → Fin T → Fin D → ℝ :=
  fun b h n d => linQKVraw P x 0 b h d n

/-- Line 183: `k = self.proj_kv(qkv[1])`, shape `B H C K`. -/
noncomputable def linKproj (P : LinAttentionParams H D T K) (x : Tens B T H D) :
    Fin B → Fin H → Fin D → Fin K → ℝ :=
  fun b h d κ => linKeyTokenMap P (fun n => linQKVraw P x 1 b h d n) κ

/-- Line 184: `v = rearrange(self.proj_kv(qkv[2]), "B H C K -> B H K C")`. -/
noncomputable def linVproj (P : LinAttentionParams H D T K) (x : Tens B T H D) :
    Fin B → Fin H → Fin K → Fin D → ℝ :=
  fun b h κ d => linValueTokenMap P (fun n => linQKVraw P x 2 b h d n) κ

/-- Lines 187–188: `attn = ((q @ k) * self.scale).softmax(dim=-1)`. -/
noncomputable def linAttnW (P : LinAttentionParams H D T K) (x : Tens B T H D) :
    Fin B → Fin H → Fin T → Fin K → ℝ :=
  fun b h n => softmax (fun κ => (∑ d, linQ P x b h n d * linKproj P x b h d κ) * P.scale)

/-- Line 189: `attn = self.attn_drop(attn)`. -/
noncomputable def linAttn (P : LinAttentionParams H D T K) (training : Bool)
    (mA : Mask4 B H T K) (x : Tens B T H D) : Fin B → Fin H → Fin T → Fin K → ℝ :=
  dropout4 P.attnDropP training mA (linAttnW P x)

/-- Lines 192–194: `x = rearrange(attn @ v, "B H N C -> B N (H C)")`,
`x = self.proj(x)`, `x = self.proj_drop(x)`. -/
noncomputable def linForward (P : LinAttentionParams H D T K) (training : Bool)
    (mA : Mask4 B H T K) (mP : Mask3 B T H D) (x : Tens B T H D) : Tens B T H D :=
  dropout3 P.projDropP training mP
    (fun b n c =>
      (∑ c2, P.wproj c c2 *
          (∑ κ, linAttn P training mA x b c2.1 n κ * linVproj P x b c2.1 κ c2.2))
        + P.bproj c)

/-- The tensor contractions (matrix multiplies) the `LinAttention.forward`
pass executes, in source order: the fused QKV linear, `proj_kv` on keys,
`proj_kv` on values, `q @ k`, `attn @ v`, and the output `proj` linear. -/
inductive LinOp where
  | qkvMM
  | projKMM
  | projVMM
  | scoreMM
  | weightMM
  | projMM
deriving DecidableEq

/-- A runtime tensor-shape error, as raised from inside a matrix multiply
whose contracted dimensions disagree (the sizes appear in the message of the
underlying runtime error). -/
inductive TensorErr where
  | matmulMismatch (expected actual : ℕ)
deriving DecidableEq

/-- `LinAttention.forward` on a raw tensor (evaluation mode), together with
the trace of matrix multiplies that completed before the result: the forward
pass performs no input-shape validation of its own, so a token count
different from the construction-time `T` only surfaces when `proj_kv` is
applied to the key tensor — after the fused QKV multiply has already run. -/
noncomputable def linForwardTraced (P : LinAttentionParams H D T K) (t : Tensor3) :
    List LinOp × Except TensorErr Tensor3 :=
  if hC : t.C = H * D then
    if hN : t.N = T then
      ([LinOp.qkvMM, LinOp.projKMM, LinOp.projVMM, LinOp.scoreMM, LinOp.weightMM, LinOp.projMM],
       Except.ok ⟨t.B, t.N, t.C, fun b n c =>
         linForward P false (fun _ _ _ _ => true) (fun _ _ _ => true)
           (fun b n hd => t.data b (Fin.cast hN.symm n) (Fin.cast hC.symm (finProdFinEquiv hd)))
           b (Fin.cast hN n) (finProdFinEquiv.symm (Fin.cast hC c))⟩)
    else ([LinOp.qkvMM], Except.error (TensorErr.matmulMismatch T t.N))
  else ([], Except.error (TensorErr.matmulMismatch (H * D) t.C))

/-! ## Construction (`__init__`) of the two modules -/

/-- `head_dim ** -0.5`, the default scale stored by both constructors. -/
noncomputable def defaultScale (headDim : ℕ) : ℝ := (Real.sqrt headDim)⁻¹

/-- `True` iff an `Except` value is `ok`. -/
def ExceptIsOk {ε α : Type} : Except ε α → Bool
  | Except.ok _ => true
  | Except.error _ => false

/-- The configuration a `FastAttention.__init__` call stores (the randomly
initialised weight values themselves are irrelevant to construction-time
behaviour). -/
structure FastInit where
  num_heads : ℕ
  scale : ℝ
  attnDropP : ℚ
  projDropP : ℚ

/-- `FastAttention.__init__(dim, num_heads, qkv_bias, qk_scale, attn_drop, proj_drop)`
(`src/models/fastformer.py` lines 14–27): computes `head_dim = dim // num_heads`
and stores `self.scale = head_dim ** -0.5` — the accepted `qk_scale` argument is
never read.  Construction fails exactly where the Python would raise:
division by a zero `num_heads`, `0.0 ** -0.5`, or an out-of-range dropout
probability rejected by `nn.Dropout`. -/
noncomputable def fastAttentionInit (dim num_heads : ℕ) (qkv_bias : Bool)
    (qk_scale : Option ℝ) (attn_drop proj_drop : ℚ) : Except String FastInit :=
  if num_heads = 0 then Except.error "integer division or modulo by zero"
  else if dim / num_heads = 0 then Except.error "0.0 cannot be raised to a negative power"
  else if attn_drop < 0 ∨ 1 < attn_drop then
    Except.error "dropout probability has to be between 0 and 1"
  else if proj_drop < 0 ∨ 1 < proj_drop then
    Except.error "dropout probability has to be between 0 and 1"
  else Except.ok ⟨num_heads, defaultScale (dim / num_heads), attn_drop, proj_drop⟩

/-- The configuration a `LinAttention.__init__` call stores; `kvTokens` is the
output width `num_tokens // kv_tokens_ratio` of the `proj_kv` linear. -/
structure LinInit where
  num_heads : ℕ
  scale : ℝ
  kvTokens : ℕ
  attnDropP : ℚ
  projDropP : ℚ

/-- `LinAttention.__init__(dim, num_tokens, kv_tokens_ratio, num_heads, qkv_bias, qk_scale, attn_drop, proj_drop)`
(`src/models/linformer.py` lines 13–33): stores `self.scale = head_dim ** -0.5`
(the accepted `qk_scale` argument is never read) and builds
`proj_kv = nn.Linear(num_tokens, num_tokens // kv_tokens_ratio)` — `nn.Linear`
accepts a zero output width, so `num_tokens // kv_tokens_ratio == 0` does not
fail; the only construction-time validations are the Python division by zero
and the `nn.Dropout` range check. -/
noncomputable def linAttentionInit (dim num_tokens kv_tokens_ratio num_heads : ℕ)
    (qkv_bias : Bool) (qk_scale : Option ℝ) (attn_drop proj_drop : ℚ) :
    Except String LinInit :=
  if num_heads = 0 then Except.error "integer division or modulo by zero"
  else if dim / num_heads = 0 then Except.error "0.0 cannot be raised to a negative power"
  else if kv_tokens_ratio = 0 then Except.error "integer division or modulo by zero"
  else if attn_drop < 0 ∨ 1 < attn_drop then
    Except.error "dropout probability has to be between 0 and 1"
  else if proj_drop < 0 ∨ 1 < proj_drop then
    Except.error "dropout probability has to be between 0 and 1"
  else Except.ok ⟨num_heads, defaultScale (dim / num_heads),
    num_tokens / kv_tokens_ratio, attn_drop, proj_drop⟩

/-! ## Block wrappers (`FastAttentionBlock`, `LinformerBlock`)

`norm_layer`, `act_layer`, `Mlp` and `DropPath` are constructor arguments or
timm/torch modules external to this repository; the spec treats them as black
boxes (`MLP sub-component (external collaborator, not core) ... treated as a
black box`), so they appear here as abstract functions owned by the block. -/

/-- A `FastAttentionBlock` (`src/models/fastformer.py` lines 55–108):
`norm1`/`norm2` are instances of the `norm_layer` constructor argument,
`mlp` the timm `Mlp`, and the stochastic-depth gate is
`mkDropPath drop_path_p dropPathImpl`.  `dropPathImpl` — modelled from the
spec, since timm `DropPath` is outside this repository — is the abstract
behaviour of `DropPath(p)` as a function of the training flag. -/
structure FastAttentionBlock (B N H D : ℕ) where
  norm1 : Tens B N H D → Tens B N H D
  attn : FastAttentionParams H D
  drop_path_p : ℚ
  dropPathImpl : Bool → Tens B N H D → Tens B N H D
  norm2 : Tens B N H D → Tens B N H D
  mlp : Tens B N H D → Tens B N H D

/-- `FastAttentionBlock.forward` (lines 105–108):
`x = x + self.drop_path(self.attn(self.norm1(x)))` then
`x = x + self.drop_path(self.mlp(self.norm2(x)))`. -/
noncomputable def FastAttentionBlock.forward (M : FastAttentionBlock B N H D)
    (training : Bool) (mA : Mask4 B H N D) (mP : Mask3 B N H D)
    (x : Tens B N H D) : Tens B N H D :=
  let x1 := x + mkDropPath M.drop_path_p M.dropPathImpl training
    (fastForward M.attn training mA mP (M.norm1 x))
  x1 + mkDropPath M.drop_path_p M.dropPathImpl training (M.mlp (M.norm2 x1))

/-- A call of the block as a state transformer: the source `forward` assigns
no module attribute, so the module after the call is the module before it. -/
noncomputable def FastAttentionBlock.call (M : FastAttentionBlock B N H D)
    (training : Bool) (mA : Mask4 B H N D) (mP : Mask3 B N H D)
    (x : Tens B N H D) : Tens B N H D × FastAttentionBlock B N H D :=
  (M.forward training mA mP x, M)

/-- A `LinformerBlock` (`src/models/linformer.py` lines 198–253), with
`T = input_resolution[0] * input_resolution[1]` the construction token count
and `K` the reduced token budget of its `LinAttention`. -/
structure LinformerBlock (B H D T K : ℕ) where
  norm1 : Tens B T H D → Tens B T H D
  attn : LinAttentionParams H D T K
  drop_path_p : ℚ
  dropPathImpl : Bool → Tens B T H D → Tens B T H D
  norm2 : Tens B T H D → Tens B T H D
  mlp : Tens B T H D → Tens B T H D

/-- `LinformerBlock.forward` (lines 250–253): the same two gated residual
steps around `LinAttention`. -/
noncomputable def LinformerBlock.forward (M : LinformerBlock B H D T K)
    (training : Bool) (mA : Mask4 B H T K) (mP : Mask3 B T H D)
    (x : Tens B T H D) : Tens B T H D :=
  let x1 := x + mkDropPath M.drop_path_p M.dropPathImpl training
    (linForward M.attn training mA mP (M.norm1 x))
  x1 + mkDropPath M.drop_path_p M.dropPathImpl training (M.mlp (M.norm2 x1))

/-- A call of the Linformer block as a state transformer. -/
noncomputable def LinformerBlock.call (M : LinformerBlock B H D T K)
    (training : Bool) (mA : Mask4 B H T K) (mP : Mask3 B T H D)
    (x : Tens B T H D) : Tens B T H D × LinformerBlock B H D T K :=
  (M.forward training mA mP x, M)

/-! ## Spec-side vocabulary for statements -/

/-- Head flattening `"B H N C -> B N (H C)"`, the identity on our
pair-indexed channel axis. -/
noncomputable def flattenHeads (t : HTens B H N D) : Tens B N H D :=
  fun b n c => t b c.1 n c.2

/-- An `nn.Linear(dim, dim)` layer acting on the channel axis. -/
noncomputable def linearChan (W : Fin H × Fin D → Fin H × Fin D → ℝ)
    (bias : Fin H × Fin D → ℝ) (t : Tens B N H D) : Tens B N H D :=
  fun b n c => (∑ c2, W c c2 * t b n c2) + bias c

/-! ## Concrete instances used by counterexamples and witnesses -/

/-- All-ones keep mask of shape `(1,1,1,1)`. -/
def mT4 : Mask4 1 1 1 1 := fun _ _ _ _ => true

/-- All-zeros keep mask of shape `(1,1,1,1)`. -/
def mF4 : Mask4 1 1 1 1 := fun _ _ _ _ => false

/-- All-ones keep mask of shape `(1,1,(1,1))`. -/
def mT3 : Mask3 1 1 1 1 := fun _ _ _ => true

/-- All-zeros keep mask of shape `(1,1,(1,1))`. -/
def mF3 : Mask3 1 1 1 1 := fun _ _ _ => false

/-- The zero `(1,1,1)`-shaped input tensor. -/
noncomputable def x00 : Tens 1 1 1 1 := fun _ _ _ => 0

/-- A one-head, one-channel, zero-dropout `FastAttention` whose QKV biases
make the query constantly `2` and the key constantly `1`, and whose scoring
vectors are zero (so both softmaxes see constant scores). -/
noncomputable def fastPcex : FastAttentionParams 1 1 :=
  ⟨1, fun _ _ _ _ => 0, fun j _ _ => ![(2 : ℝ), 1, 0] j, 0,
   fun _ _ => 0, fun _ => 0, 0, fun _ _ => 0, fun _ _ => 0⟩

/-- The all-zero-weight, zero-dropout `FastAttention` parameter set. -/
noncomputable def fastP0 : FastAttentionParams 1 1 :=
  ⟨1, fun _ _ _ _ => 0, fun _ _ _ => 0, 0, fun _ _ => 0, fun _ => 0, 0,
   fun _ _ => 0, fun _ _ => 0⟩

/-- The all-zero-weight, zero-dropout `LinAttention` parameter set with
`T = K = 1`. -/
noncomputable def linP0 : LinAttentionParams 1 1 1 1 :=
  ⟨1, fun _ _ _ _ => 0, fun _ _ _ => 0, fun _ _ => 0, fun _ => 0, 0,
   fun _ _ => 0, fun _ => 0, 0⟩

/-- As `linP0` but with token-projection weight `1` (so its token map is
`f ↦ f 0`, distinct from the zero map of `linP0`). -/
noncomputable def linPk : LinAttentionParams 1 1 1 1 :=
  { linP0 with wkv := fun _ _ => 1 }

/-- A degenerate `FastAttentionBlock` around `fastP0` with identity
norms/MLP and `drop_path = 0`. -/
noncomputable def fastBlock0 : FastAttentionBlock 1 1 1 1 :=
  ⟨id, fastP0, 0, fun _ => id, id, id⟩

/-- A degenerate `LinformerBlock` around `linP0`. -/
noncomputable def linBlock0 : LinformerBlock 1 1 1 1 1 :=
  ⟨id, linP0, 0, fun _ => id, id, id⟩

/-- The zero raw tensor of shape `(1, 1, 1)`. -/
noncomputable def t111 : Tensor3 := ⟨1, 1, 1, fun _ _ _ => 0⟩

/-- The zero raw tensor of shape `(1, 2, 1)`: two tokens, one channel. -/
noncomputable def t121 : Tensor3 := ⟨1, 2, 1, fun _ _ _ => 0⟩

/-! ## Helper lemmas -/

lemma softmax_fin_one (s : Fin 1 → ℝ) (n : Fin 1) : softmax s n = 1 := by
  have hn : n = 0 := Subsingleton.elim n 0
  subst hn
  rw [softmax, Fin.sum_univ_one]
  exact div_self (Real.exp_ne_zero _)

lemma dropout4_zero (training : Bool) (m : Mask4 B H N D) (x : HTens B H N D) :
    dropout4 0 training m x = x := by
  simp [dropout4]

lemma dropout4_eval (p : ℚ) (m : Mask4 B H N D) (x : HTens B H N D) :
    dropout4 p false m x = x := by
  simp [dropout4]

lemma dropout3_zero (training : Bool) (m : Mask3 B N H D) (x : Tens B N H D) :
    dropout3 0 training m x = x := by
  simp [dropout3]

lemma dropout3_eval (p : ℚ) (m : Mask3 B N H D) (x : Tens B N H D) :
    dropout3 p false m x = x := by
  simp [dropout3]

lemma mkDropPath_zero {α : Type} (impl : Bool → α → α) (training : Bool) :
    mkDropPath 0 impl training = id := by
  simp [mkDropPath]

lemma fastP_mask_irrel (P : FastAttentionParams H D) (hA : P.attnDropP = 0)
    (training : Bool) (mA : Mask4 B H N D) (x : Tens B N H D) :
    fastP P training mA x = fastPreP P x := by
  rw [fastP, hA, dropout4_zero]

lemma fastP_eval (P : FastAttentionParams H D) (mA : Mask4 B H N D)
    (x : Tens B N H D) : fastP P false mA x = fastPreP P x := by
  rw [fastP, dropout4_eval]

lemma fastBeta_of_P (P : FastAttentionParams H D) (training training2 : Bool)
    (mA : Mask4 B H N D) (mA2 : Mask4 B H N D) (x : Tens B N H D)
    (h : fastP P training mA x = fastP P training2 mA2 x) :
    fastBeta P training mA x = fastBeta P training2 mA2 x := by
  unfold fastBeta
  rw [h]

lemma fastGlobalK_of_P (P : FastAttentionParams H D) (training training2 : Bool)
    (mA : Mask4 B H N D) (mA2 : Mask4 B H N D) (x : Tens B N H D)
    (h : fastP P training mA x = fastP P training2 mA2 x) :
    fastGlobalK P training mA x = fastGlobalK P training2 mA2 x := by
  unfold fastGlobalK
  rw [fastBeta_of_P P training training2 mA mA2 x h]

lemma fastU_of_P (P : FastAttentionParams H D) (training training2 : Bool)
    (mA : Mask4 B H N D) (mA2 : Mask4 B H N D) (x : Tens B N H D)
    (h : fastP P training mA x = fastP P training2 mA2 x) :
    fastU P training mA x = fastU P training2 mA2 x := by
  unfold fastU
  rw [fastGlobalK_of_P P training training2 mA mA2 x h]

lemma linAttn_mask_irrel (P : LinAttentionParams H D T K) (hA : P.attnDropP = 0)
    (training : Bool) (mA : Mask4 B H T K) (x : Tens B T H D) :
    linAttn P training mA x = linAttnW P x := by
  rw [linAttn, hA, dropout4_zero]

lemma linAttn_eval (P : LinAttentionParams H D T K) (mA : Mask4 B H T K)
    (x : Tens B T H D) : linAttn P false mA x = linAttnW P x := by
  rw [linAttn, dropout4_eval]

lemma fastForward_mask_irrel (P : FastAttentionParams H D) (hA : P.attnDropP = 0)
    (hP : P.projDropP = 0) (training : Bool) (mA mA2 : Mask4 B H N D)
    (mP mP2 : Mask3 B N H D) (x : Tens B N H D) :
    fastForward P training mA mP x = fastForward P training mA2 mP2 x := by
  have h : fastP P training mA x = fastP P training mA2 x :=
    (fastP_mask_irrel P hA training mA x).trans (fastP_mask_irrel P hA training mA2 x).symm
  unfold fastForward
  rw [hP, dropout3_zero, dropout3_zero, fastU_of_P P training training mA mA2 x h]

lemma fastForward_eval_mask_irrel (P : FastAttentionParams H D)
    (mA mA2 : Mask4 B H N D) (mP mP2 : Mask3 B N H D) (x : Tens B N H D) :
    fastForward P false mA mP x = fastForward P false mA2 mP2 x := by
  have h : fastP P false mA x = fastP P false mA2 x :=
    (fastP_eval P mA x).trans (fastP_eval P mA2 x).symm
  unfold fastForward
  rw [dropout3_eval, dropout3_eval, fastU_of_P P false false mA mA2 x h]

lemma linForward_mask_irrel (P : LinAttentionParams H D T K) (hA : P.attnDropP = 0)
    (hP : P.projDropP = 0) (training : Bool) (mA mA2 : Mask4 B H T K)
    (mP mP2 : Mask3 B T H D) (x : Tens B T H D) :
    linForward P training mA mP x = linForward P training mA2 mP2 x := by
  unfold linForward
  rw [hP, dropout3_zero, dropout3_zero, linAttn_mask_irrel P hA training mA x,
    linAttn_mask_irrel P hA training mA2 x]

lemma linForward_eval_mask_irrel (P : LinAttentionParams H D T K)
    (mA mA2 : Mask4 B H T K) (mP mP2 : Mask3 B T H D) (x : Tens B T H D) :
    linForward P false mA mP x = linForward P false mA2 mP2 x := by
  unfold linForward
  rw [dropout3_eval, dropout3_eval, linAttn_eval P mA x, linAttn_eval P mA2 x]

lemma fastBlock_mask_irrel (M : FastAttentionBlock B N H D)
    (hA : M.attn.attnDropP = 0) (hP : M.attn.projDropP = 0) (hDP : M.drop_path_p = 0)
    (training : Bool) (mA mA2 : Mask4 B H N D) (mP mP2 : Mask3 B N H D)
    (x : Tens B N H D) :
    M.forward training mA mP x = M.forward training mA2 mP2 x := by
  simp only [FastAttentionBlock.forward]
  rw [hDP, mkDropPath_zero,
    fastForward_mask_irrel M.attn hA hP training mA mA2 mP mP2 (M.norm1 x)]

lemma fastBlock_eval_mask_irrel (M : FastAttentionBlock B N H D)
    (mA mA2 : Mask4 B H N D) (mP mP2 : Mask3 B N H D) (x : Tens B N H D) :
    M.forward false mA mP x = M.forward false mA2 mP2 x := by
  simp only [FastAttentionBlock.forward]
  rw [fastForward_eval_mask_irrel M.attn mA mA2 mP mP2 (M.norm1 x)]

lemma linBlock_mask_irrel (M : LinformerBlock B H D T K)
    (hA : M.attn.attnDropP = 0) (hP : M.attn.projDropP = 0) (hDP : M.drop_path_p = 0)
    (training : Bool) (mA mA2 : Mask4 B H T K) (mP mP2 : Mask3 B T H D)
    (x : Tens B T H D) :
    M.forward training mA mP x = M.forward training mA2 mP2 x := by
  simp only [LinformerBlock.forward]
  rw [hDP, mkDropPath_zero,
    linForward_mask_irrel M.attn hA hP training mA mA2 mP mP2 (M.norm1 x)]

lemma linBlock_eval_mask_irrel (M : LinformerBlock B H D T K)
    (mA mA2 : Mask4 B H T K) (mP mP2 : Mask3 B T H D) (x : Tens B T H D) :
    M.forward false mA mP x = M.forward false mA2 mP2 x := by
  simp only [LinformerBlock.forward]
  rw [linForward_eval_mask_irrel M.attn mA mA2 mP mP2 (M.norm1 x)]

/-! ## Claims -/

/-- Claim C1, counterexample.  The claim states that in
`FastAttention.forward` the global key vector is the β-weighted sum of the
per-token vectors of the intermediate `p` over the token axis.  On the code
(`global_k = einsum("BHN,BHNC->BHNC", beta, k)`, line 43) the weighted sum
ranges over the key vectors `k`, not over `p`.  Concretely, with one head
and one channel, a query that is constantly `2` and a key that is constantly
`1` (and zero scoring vectors, so every softmax weight is `1`), the code
yields a global key of `1` while the β-weighted sum of `p` is `2`. -/
theorem fast_global_key_not_beta_sum_of_p :
    ¬ (fastGlobalK fastPcex false mT4 x00 0 0 0 =
        ∑ n, fastBeta fastPcex false mT4 x00 0 0 n * fastP fastPcex false mT4 x00 0 0 n 0) := by
  have hL : fastGlobalK fastPcex false mT4 x00 0 0 0 = 1 := by
    simp [fastGlobalK, fastBeta, softmax_fin_one, fastK, fastQKV, fastPcex, x00,
      Fin.sum_univ_one]
  have hR : (∑ n, fastBeta fastPcex false mT4 x00 0 0 n *
      fastP fastPcex false mT4 x00 0 0 n 0) = 2 := by
    simp [fastBeta, softmax_fin_one, fastP, dropout4, fastPreP, fastGlobalQ, fastAlpha,
      fastQ, fastK, fastQKV, fastPcex, x00, Fin.sum_univ_one]
  intro h
  rw [hL, hR] at h
  norm_num at h

/-- Claim C1 (amended): in `FastAttention.forward`, after computing the
intermediate `p` (global query elementwise-multiplied into every key vector,
with attention dropout) and the softmax weights `β` from `p`, the global key
vector for each `(batch, head)` is the β-weighted sum of the per-token KEY
vectors `k` (not of the vectors of `p`) over the token axis. -/
theorem fast_global_key_formula (P : FastAttentionParams H D) (training : Bool)
    (mA : Mask4 B H N D) (x : Tens B N H D) (b : Fin B) (hh : Fin H) (d : Fin D) :
    fastGlobalK P training mA x b hh d
      = ∑ n, fastBeta P training mA x b hh n * fastK P x b hh n d ∧
    fastBeta P training mA x b hh
      = softmax (fun n => (∑ d2, fastP P training mA x b hh n d2 * P.w_k hh d2) * P.scale) :=
  ⟨rfl, rfl⟩

/-- Claim C2, counterexample.  The claim states that `LinAttention` owns two
distinct learned token-projection maps of identical shape, one for keys and a
separate one (its own weights) for values; that would make every pair of such
maps jointly realisable by some parameter setting.  In the code both
projections are the single owned module `self.proj_kv`, so even the concrete
realisable pair (the map of `linPk`, weight `1`; the map of `linP0`,
weight `0`) is realised by no parameter setting. -/
theorem lin_proj_kv_not_independent :
    ¬ ∃ P : LinAttentionParams 1 1 1 1,
      linKeyTokenMap P = linKeyTokenMap linPk ∧
      linValueTokenMap P = linValueTokenMap linP0 := by
  rintro ⟨P, h1, h2⟩
  have h3 : linKeyTokenMap linPk = linValueTokenMap linP0 := by
    rw [← h1, ← h2]
    rfl
  have h4 := congrFun (congrFun h3 (fun _ => 1)) 0
  simp [linKeyTokenMap, linValueTokenMap, linPk, linP0, Fin.sum_univ_one] at h4

/-- Claim C2 (amended): `LinAttention` owns ONE learned linear
token-projection map of shape `num_tokens → num_tokens // kv_tokens_ratio`
(`self.proj_kv`), and its forward pass applies that same map (shared
weights) to both the key tensor and the value tensor, acting on the
token-count axis while the `(head, channel)` indices pass through
untouched. -/
theorem lin_proj_kv_shared :
    (∀ (P : LinAttentionParams H D T K), linKeyTokenMap P = linValueTokenMap P)
    ∧ (∀ (P : LinAttentionParams H D T K) (x : Tens B T H D) (b : Fin B)
        (hh : Fin H) (d : Fin D) (κ : Fin K),
        linKproj P x b hh d κ = linKeyTokenMap P (fun n => linQKVraw P x 1 b hh d n) κ)
    ∧ (∀ (P : LinAttentionParams H D T K) (x : Tens B T H D) (b : Fin B)
        (hh : Fin H) (κ : Fin K) (d : Fin D),
        linVproj P x b hh κ d = linValueTokenMap P (fun n => linQKVraw P x 2 b hh d n) κ) :=
  ⟨fun _ => rfl, fun _ _ _ _ _ _ => rfl, fun _ _ _ _ _ _ => rfl⟩

/-- Claim C3: the output of `FastAttention.forward` equals the linear output
projection `self.proj` applied to the head-flattened tensor `u`, added to the
untouched head-flattened pre-attention per-token query tensor `q`, with
output dropout applied to that sum (lines 48–52 of
`src/models/fastformer.py`). -/
theorem fast_output_residual_formula (P : FastAttentionParams H D) (training : Bool)
    (mA : Mask4 B H N D) (mP : Mask3 B N H D) (x : Tens B N H D) :
    fastForward P training mA mP x =
      dropout3 P.projDropP training mP
        (linearChan P.wproj P.bproj (flattenHeads (fastU P training mA x))
          + flattenHeads (fastQ P x)) := rfl

/-- Claim C4: for every input tensor of shape `(B, N, C)` with `C` equal to
the construction-time `dim = H * D` (hence divisible by the head count) and
any token count `N ≥ 1`, `FastAttention.forward` succeeds and returns a
tensor of the same shape `(B, N, C)`. -/
theorem fast_forward_preserves_shape (P : FastAttentionParams H D) (t : Tensor3)
    (hC : t.C = H * D) (hN : 1 ≤ t.N) :
    (fastForwardT P t).map Tensor3.shape = some (t.B, t.N, t.C) := by
  unfold fastForwardT
  rw [dif_pos hC]
  rfl

/-- Witness for claim C4 at the concrete one-head, one-token input `t111`. -/
theorem fast_forward_preserves_shape_witness :
    t111.C = 1 * 1 ∧ 1 ≤ t111.N ∧
    (fastForwardT fastP0 t111).map Tensor3.shape = some (1, 1, 1) :=
  ⟨rfl, le_refl 1, fast_forward_preserves_shape fastP0 t111 rfl (le_refl 1)⟩

/-- Claim C5: for both block wrappers the forward pass computes exactly
`y = x + StochasticDepth(Attention(Norm1(x)))` followed by
`y + StochasticDepth(MLP(Norm2(y)))`, and as a state transformer the call
returns the module unchanged (pure function of input and parameters). -/
theorem block_forward_formula :
    (∀ {B N H D : ℕ} (M : FastAttentionBlock B N H D) (training : Bool)
      (mA : Mask4 B H N D) (mP : Mask3 B N H D) (x : Tens B N H D),
      M.call training mA mP x =
        (let y := x + mkDropPath M.drop_path_p M.dropPathImpl training
            (fastForward M.attn training mA mP (M.norm1 x));
         (y + mkDropPath M.drop_path_p M.dropPathImpl training (M.mlp (M.norm2 y)), M)))
    ∧ (∀ {B H D T K : ℕ} (M : LinformerBlock B H D T K) (training : Bool)
      (mA : Mask4 B H T K) (mP : Mask3 B T H D) (x : Tens B T H D),
      M.call training mA mP x =
        (let y := x + mkDropPath M.drop_path_p M.dropPathImpl training
            (linForward M.attn training mA mP (M.norm1 x));
         (y + mkDropPath M.drop_path_p M.dropPathImpl training (M.mlp (M.norm2 y)), M))) :=
  ⟨fun _ _ _ _ _ => rfl, fun _ _ _ _ _ => rfl⟩

/-- Claim C6, counterexample.  The claim states that feeding `LinAttention`
an input whose token count differs from the construction-time `num_tokens`
raises a shape-mismatch error detected and reported before any matrix
multiply is attempted.  On the code the forward pass performs no shape
validation of its own: at the two-token input `t121` against a module built
for one token, the trace of completed matrix multiplies at the moment the
error surfaces is `[qkvMM]` — the fused QKV multiply has already been
attempted and completed — not the empty trace the claim requires. -/
theorem lin_token_mismatch_not_before_matmul :
    (linForwardTraced linP0 t121).1 = [LinOp.qkvMM] ∧
    [LinOp.qkvMM] ≠ ([] : List LinOp) := by
  constructor
  · simp [linForwardTraced, t121]
  · simp

/-- Claim C6 (amended): calling `LinAttention.forward` with a token count
`N' ≠ num_tokens` (and a valid channel count) does fail, with the expected
and actual token counts carried by the error — but the failure arises from
the token-projection matrix multiply itself, after the fused QKV multiply
has already run; no dedicated check runs before the first matrix multiply. -/
theorem lin_token_mismatch_after_qkv (P : LinAttentionParams H D T K)
    (t : Tensor3) (hC : t.C = H * D) (hN : t.N ≠ T) :
    linForwardTraced P t =
      ([LinOp.qkvMM], Except.error (TensorErr.matmulMismatch T t.N)) := by
  unfold linForwardTraced
  rw [dif_pos hC, dif_neg hN]

/-- Witness for the amended claim C6 at the concrete two-token input `t121`
against the one-token module `linP0`. -/
theorem lin_token_mismatch_after_qkv_witness :
    t121.C = 1 * 1 ∧ t121.N ≠ 1 ∧
    linForwardTraced linP0 t121 =
      ([LinOp.qkvMM], Except.error (TensorErr.matmulMismatch 1 2)) :=
  ⟨rfl, (by norm_num : (2 : ℕ) ≠ 1),
   lin_token_mismatch_after_qkv linP0 t121 rfl (by norm_num : (2 : ℕ) ≠ 1)⟩

/-- Claim C7, counterexample.  The claim states that constructing
`LinAttention` with `kv_tokens_ratio` such that
`num_tokens // kv_tokens_ratio == 0` raises a `ConfigError` at construction
time.  On the code `nn.Linear(num_tokens, 0)` is accepted, so construction
with `num_tokens = 4`, `kv_tokens_ratio = 8` (`4 // 8 == 0`) succeeds. -/
theorem lin_zero_budget_constructs :
    ExceptIsOk (linAttentionInit 8 4 8 8 false none 0 0) = true ∧
    4 / 8 = 0 := by
  constructor
  · norm_num [linAttentionInit, ExceptIsOk]
  · norm_num

/-- Claim C7 (amended): at construction time `LinAttention` validates only
what its sub-modules validate: a negative (or `> 1`) dropout probability is
rejected by `nn.Dropout` with a `ValueError`, while a `kv_tokens_ratio`
making `num_tokens // kv_tokens_ratio == 0` is accepted without error
(given non-degenerate `num_heads`, `head_dim` and a nonzero ratio). -/
theorem lin_init_validation (dim num_tokens kv_tokens_ratio num_heads : ℕ)
    (h1 : num_heads ≠ 0) (h2 : dim / num_heads ≠ 0) (h3 : kv_tokens_ratio ≠ 0)
    (qkv_bias : Bool) (qk_scale : Option ℝ) (attn_drop proj_drop : ℚ) :
    (attn_drop < 0 →
      linAttentionInit dim num_tokens kv_tokens_ratio num_heads qkv_bias qk_scale
          attn_drop proj_drop
        = Except.error "dropout probability has to be between 0 and 1")
    ∧ (0 ≤ attn_drop → attn_drop ≤ 1 → 0 ≤ proj_drop → proj_drop ≤ 1 →
      ExceptIsOk (linAttentionInit dim num_tokens kv_tokens_ratio num_heads qkv_bias
          qk_scale attn_drop proj_drop) = true) := by
  constructor
  · intro hA
    unfold linAttentionInit
    rw [if_neg h1, if_neg h2, if_neg h3, if_pos (Or.inl hA)]
  · intro hA1 hA2 hP1 hP2
    have hA : ¬(attn_drop < 0 ∨ 1 < attn_drop) := by
      rintro (h | h)
      · exact absurd h (not_lt.2 hA1)
      · exact absurd h (not_lt.2 hA2)
    have hPd : ¬(proj_drop < 0 ∨ 1 < proj_drop) := by
      rintro (h | h)
      · exact absurd h (not_lt.2 hP1)
      · exact absurd h (not_lt.2 hP2)
    unfold linAttentionInit
    rw [if_neg h1, if_neg h2, if_neg h3, if_neg hA, if_neg hPd]
    rfl

/-- Witness for the amended claim C7: a negative dropout probability fails
at construction, and a zero reduced token budget constructs fine. -/
theorem lin_init_validation_witness :
    ((-1 : ℚ) < 0 ∧
      linAttentionInit 8 4 8 8 false none (-1) 0
        = Except.error "dropout probability has to be between 0 and 1") ∧
    ExceptIsOk (linAttentionInit 8 4 8 8 false none 0 0) = true :=
  ⟨⟨by norm_num,
    (lin_init_validation 8 4 8 8 (by norm_num) (by norm_num) (by norm_num)
      false none (-1) 0).1 (by norm_num)⟩,
   (lin_init_validation 8 4 8 8 (by norm_num) (by norm_num) (by norm_num)
      false none 0 0).2 (by norm_num) (by norm_num) (by norm_num) (by norm_num)⟩

/-- Claim C8: the claim (and the docstrings of both block classes) say a set
`qk_scale` overrides the default `head_dim ** -0.5` scale.  The code of both
constructors stores `self.scale = head_dim ** -0.5` unconditionally and
never reads the accepted `qk_scale` argument: constructed with `dim = 16`,
`num_heads = 4` and `qk_scale = 3`, both modules store scale
`4 ** -0.5 = 1/2`, not `3`. -/
theorem qk_scale_ignored :
    fastAttentionInit 16 4 false (some 3) 0 0
      = Except.ok ⟨4, defaultScale 4, 0, 0⟩ ∧
    linAttentionInit 16 196 4 4 false (some 3) 0 0
      = Except.ok ⟨4, defaultScale 4, 49, 0, 0⟩ ∧
    defaultScale 4 = 2⁻¹ ∧ ((2⁻¹ : ℝ) ≠ 3) := by
  refine ⟨by norm_num [fastAttentionInit], by norm_num [linAttentionInit], ?_, by norm_num⟩
  unfold defaultScale
  rw [show ((4 : ℕ) : ℝ) = (2 : ℝ) ^ 2 by norm_num,
    Real.sqrt_sq (by norm_num : (0 : ℝ) ≤ 2)]

/-- Claim C9: with `drop_path = 0` both blocks select `nn.Identity()` as the
stochastic-depth gate, so the gate is the identity on each residual branch in
both training and inference modes, and the block output equals the ungated
composition `y = x + Attention(Norm1(x))` followed by `y + MLP(Norm2(y))`,
whatever the (external) `DropPath` implementation would have done. -/
theorem drop_path_zero_identity :
    (∀ (α : Type) (impl : Bool → α → α) (training : Bool),
      mkDropPath 0 impl training = id)
    ∧ (∀ {B N H D : ℕ} (n1 : Tens B N H D → Tens B N H D)
        (A : FastAttentionParams H D) (impl : Bool → Tens B N H D → Tens B N H D)
        (n2 mlp : Tens B N H D → Tens B N H D) (training : Bool)
        (mA : Mask4 B H N D) (mP : Mask3 B N H D) (x : Tens B N H D),
        (FastAttentionBlock.mk n1 A 0 impl n2 mlp).forward training mA mP x =
          (let y := x + fastForward A training mA mP (n1 x); y + mlp (n2 y)))
    ∧ (∀ {B H D T K : ℕ} (n1 : Tens B T H D → Tens B T H D)
        (A : LinAttentionParams H D T K) (impl : Bool → Tens B T H D → Tens B T H D)
        (n2 mlp : Tens B T H D → Tens B T H D) (training : Bool)
        (mA : Mask4 B H T K) (mP : Mask3 B T H D) (x : Tens B T H D),
        (LinformerBlock.mk n1 A 0 impl n2 mlp).forward training mA mP x =
          (let y := x + linForward A training mA mP (n1 x); y + mlp (n2 y))) := by
  refine ⟨fun α impl training => by simp [mkDropPath], ?_, ?_⟩
  · intro B N H D n1 A impl n2 mlp training mA mP x
    simp only [FastAttentionBlock.forward, mkDropPath_zero, id_eq]
  · intro B H D T K n1 A impl n2 mlp training mA mP x
    simp only [LinformerBlock.forward, mkDropPath_zero, id_eq]

/-- Claim C10: with every dropout probability equal to `0` — or, for the
attention engines, in evaluation mode — the forward passes of
`FastAttention`, `LinAttention` and both blocks are deterministic functions
of the parameters and the input: the result does not depend on the dropout
keep-mask oracles, a repeated call on the same input returns the same
output, and the module state after a call equals the state before it. -/
theorem dropout_zero_deterministic :
    (∀ {B N H D : ℕ} (P : FastAttentionParams H D), P.attnDropP = 0 →
      P.projDropP = 0 → ∀ (training : Bool) (mA mA2 : Mask4 B H N D)
      (mP mP2 : Mask3 B N H D) (x : Tens B N H D),
      fastForward P training mA mP x = fastForward P training mA2 mP2 x)
    ∧ (∀ {B N H D : ℕ} (P : FastAttentionParams H D) (mA mA2 : Mask4 B H N D)
        (mP mP2 : Mask3 B N H D) (x : Tens B N H D),
        fastForward P false mA mP x = fastForward P false mA2 mP2 x)
    ∧ (∀ {B H D T K : ℕ} (P : LinAttentionParams H D T K), P.attnDropP = 0 →
        P.projDropP = 0 → ∀ (training : Bool) (mA mA2 : Mask4 B H T K)
        (mP mP2 : Mask3 B T H D) (x : Tens B T H D),
        linForward P training mA mP x = linForward P training mA2 mP2 x)
    ∧ (∀ {B H D T K : ℕ} (P : LinAttentionParams H D T K) (mA mA2 : Mask4 B H T K)
        (mP mP2 : Mask3 B T H D) (x : Tens B T H D),
        linForward P false mA mP x = linForward P false mA2 mP2 x)
    ∧ (∀ {B N H D : ℕ} (M : FastAttentionBlock B N H D), M.attn.attnDropP = 0 →
        M.attn.projDropP = 0 → M.drop_path_p = 0 → ∀ (training : Bool)
        (mA mA2 : Mask4 B H N D) (mP mP2 : Mask3 B N H D) (x : Tens B N H D),
        (((M.call training mA mP x).2).call training mA2 mP2 x).1
            = (M.call training mA mP x).1
        ∧ (((M.call training mA mP x).2).call training mA2 mP2 x).2 = M)
    ∧ (∀ {B N H D : ℕ} (M : FastAttentionBlock B N H D) (mA mA2 : Mask4 B H N D)
        (mP mP2 : Mask3 B N H D) (x : Tens B N H D),
        (M.call false mA mP x).1 = (M.call false mA2 mP2 x).1
        ∧ (M.call false mA mP x).2 = M)
    ∧ (∀ {B H D T K : ℕ} (M : LinformerBlock B H D T K), M.attn.attnDropP = 0 →
        M.attn.projDropP = 0 → M.drop_path_p = 0 → ∀ (training : Bool)
        (mA mA2 : Mask4 B H T K) (mP mP2 : Mask3 B T H D) (x : Tens B T H D),
        (((M.call training mA mP x).2).call training mA2 mP2 x).1
            = (M.call training mA mP x).1
        ∧ (((M.call training mA mP x).2).call training mA2 mP2 x).2 = M)
    ∧ (∀ {B H D T K : ℕ} (M : LinformerBlock B H D T K) (mA mA2 : Mask4 B H T K)
        (mP mP2 : Mask3 B T H D) (x : Tens B T H D),
        (M.call false mA mP x).1 = (M.call false mA2 mP2 x).1
        ∧ (M.call false mA mP x).2 = M) := by
  refine ⟨?_, ?_, ?_, ?_, ?_, ?_, ?_, ?_⟩
  · intro B N H D P hA hP training mA mA2 mP mP2 x
    exact fastForward_mask_irrel P hA hP training mA mA2 mP mP2 x
  · intro B N H D P mA mA2 mP mP2 x
    exact fastForward_eval_mask_irrel P mA mA2 mP mP2 x
  · intro B H D T K P hA hP training mA mA2 mP mP2 x
    exact linForward_mask_irrel P hA hP training mA mA2 mP mP2 x
  · intro B H D T K P mA mA2 mP mP2 x
    exact linForward_eval_mask_irrel P mA mA2 mP mP2 x
  · intro B N H D M hA hP hDP training mA mA2 mP mP2 x
    exact ⟨fastBlock_mask_irrel M hA hP hDP training mA2 mA mP2 mP x, rfl⟩
  · intro B N H D M mA mA2 mP mP2 x
    exact ⟨fastBlock_eval_mask_irrel M mA mA2 mP mP2 x, rfl⟩
  · intro B H D T K M hA hP hDP training mA mA2 mP mP2 x
    exact ⟨linBlock_mask_irrel M hA hP hDP training mA2 mA mP2 mP x, rfl⟩
  · intro B H D T K M mA mA2 mP mP2 x
    exact ⟨linBlock_eval_mask_irrel M mA mA2 mP mP2 x, rfl⟩

/-- Witness for claim C10 at the concrete zero-dropout modules `fastP0`,
`linP0`, `fastBlock0` and `linBlock0`, with opposite keep-mask oracles. -/
theorem dropout_zero_deterministic_witness :
    fastForward fastP0 true mT4 mT3 x00 = fastForward fastP0 true mF4 mF3 x00 ∧
    fastForward fastP0 false mT4 mT3 x00 = fastForward fastP0 false mF4 mF3 x00 ∧
    linForward linP0 true mT4 mT3 x00 = linForward linP0 true mF4 mF3 x00 ∧
    linForward linP0 false mT4 mT3 x00 = linForward linP0 false mF4 mF3 x00 ∧
    (((fastBlock0.call true mT4 mT3 x00).2).call true mF4 mF3 x00).1
      = (fastBlock0.call true mT4 mT3 x00).1 ∧
    (((linBlock0.call true mT4 mT3 x00).2).call true mF4 mF3 x00).2 = linBlock0 :=
  ⟨dropout_zero_deterministic.1 fastP0 rfl rfl true mT4 mF4 mT3 mF3 x00,
   dropout_zero_deterministic.2.1 fastP0 mT4 mF4 mT3 mF3 x00,
   dropout_zero_deterministic.2.2.1 linP0 rfl rfl true mT4 mF4 mT3 mF3 x00,
   dropout_zero_deterministic.2.2.2.1 linP0 mT4 mF4 mT3 mF3 x00,
   (dropout_zero_deterministic.2.2.2.2.1 fastBlock0 rfl rfl rfl true mT4 mF4 mT3 mF3 x00).1,
   (dropout_zero_deterministic.2.2.2.2.2.2.1 linBlock0 rfl rfl rfl true mT4 mF4 mT3 mF3 x00).2⟩
